import Mathlib

/-!
Verification of the snapshot aggregation / deduplication engine of
`trend_radar_langgraph.py` (repository beingaigital/bjtupubclaw).

The embedding below mirrors, construct by construct:
  * the per-item dictionaries built in `SpiderNode.__call__` (lines 202-216),
  * the snapshot save / 24-hour merge logic (lines 226-292),
  * the category grouping and ordering in `render_langgraph_html_report`
    (lines 428-464),
  * the raw-row platform sort (lines 468-480 and 617-630).

Python dictionaries with a fixed key set become structures with `Option`-typed
fields (`none` models a JSON `null` / Python `None`); the in-memory
`aggregated` dict becomes an insertion-ordered association list; every
`try/except` becomes an explicit `Except` value that the surrounding code
either pattern-matches (a handler) or propagates.
-/

namespace TrendRadar

/-- One element of `news_list` / of a snapshot's `"items"` array: the dict
built at lines 206-216 of `trend_radar_langgraph.py`.  Field names match the
dict keys; `Option` models Python `None`. -/
structure RawItem where
  source_id : Option String
  source : Option String
  source_name : Option String
  title : Option String
  rank : Option Int
  url : Option String
  mobile_url : Option String
  hot_value : Option Int
deriving DecidableEq

/-- Python truthiness fallback `a or d` for an optional string: `None` and the
empty string are falsy, anything else is returned unchanged. -/
def orStr : Option String → String → String
  | some s, d => if s = "" then d else s
  | none, d => d

/-- The dedup key of line 263-266:
`(item.get("source_id") or item.get("source") or "", item.get("title") or "")`. -/
def keyOf (i : RawItem) : String × String :=
  (orStr i.source_id (orStr i.source ""), orStr i.title "")

/-- The reconciliation of lines 273-285: keep the numerically smaller non-null
`rank` and the numerically larger non-null `hot_value`; every other field is
left as first written. -/
def updAgg (cur incoming : RawItem) : RawItem :=
  let r : Option Int :=
    match incoming.rank, cur.rank with
    | some rn, none => some rn
    | some rn, some ro => if rn < ro then some rn else some ro
    | none, _ => cur.rank
  let h : Option Int :=
    match incoming.hot_value, cur.hot_value with
    | some hn, none => some hn
    | some hn, some ho => if hn > ho then some hn else some ho
    | none, _ => cur.hot_value
  { cur with rank := r, hot_value := h }

/-- The `aggregated` dict: an insertion-ordered association list from dedup key
to the stored record (Python dicts preserve insertion order). -/
abbrev AggMap : Type := List ((String × String) × RawItem)

/-- `aggregated.get(key)`. -/
def lookupAgg (m : AggMap) (k : String × String) : Option RawItem :=
  ((List.find? (fun e => decide (e.1 = k)) m)).map (fun e => e.2)

/-- The body of the `for item in items` loop (lines 262-285): skip empty
titles, seed a fresh key with `dict(item)`, otherwise reconcile rank/hot. -/
def insertItem (m : AggMap) (i : RawItem) : AggMap :=
  let k := keyOf i
  if k.2 = "" then m
  else
    match lookupAgg m k with
    | none => m ++ [(k, i)]
    | some _ => List.map (fun e => if e.1 = k then (e.1, updAgg e.2 i) else e) m

/-- Folding one snapshot's item list into the aggregation dict. -/
def foldItems (m : AggMap) (items : List RawItem) : AggMap :=
  items.foldl insertItem m

/-- One file of the snapshot directory as the loader sees it.
`ts?` is the result of `datetime.strptime(p.stem.replace("snapshot_", ""),
"%Y%m%d_%H%M%S")` — `none` when `strptime` raises (unparsable embedded
timestamp).  `content` is the result of `json.load` followed by
`data.get("items") or []` — `none` when that block raises (invalid JSON
body, or a JSON value without `.get`). -/
structure SnapFile where
  ts? : Option Int
  content : Option (List RawItem)
deriving DecidableEq

/-- The comparison `dt < cutoff` of line 257.  `dt` comes from
`datetime.strptime` and is timezone-NAIVE, while `cutoff =
get_beijing_time() - timedelta(hours=24)` is timezone-AWARE
(`datetime.now(pytz.timezone("Asia/Shanghai"))`).  Python raises `TypeError`
on any order comparison between a naive and an aware datetime, so this
comparison never returns a boolean. -/
def ltNaiveAware (_dt _cutoff : Int) : Except String Bool :=
  Except.error "TypeError: cannot compare offset-naive and offset-aware datetimes"

/-- The `for p in snapshot_dir.glob(...)` loop of lines 251-285.  The inner
`try/except` covers only the timestamp parse (`continue` on failure); a
`TypeError` from `dt < cutoff` or a failure of `json.load` propagates out of
the loop to the handler at line 288. -/
def foldFiles (cutoff : Int) (m : AggMap) : List SnapFile → Except String AggMap
  | [] => Except.ok m
  | f :: fs =>
    match f.ts? with
    | none => foldFiles cutoff m fs
    | some dt =>
      match ltNaiveAware dt cutoff with
      | Except.error e => Except.error e
      | Except.ok true => foldFiles cutoff m fs
      | Except.ok false =>
        match f.content with
        | none => Except.error "json.load failed"
        | some items => foldFiles cutoff (foldItems m items) fs

/-- Lines 250-290: run the fold over the directory; on success take
`list(aggregated.values()) if aggregated else news_list`; the handler at
line 288 turns any exception into `merged_list = news_list`. -/
def mergeStep (cutoff : Int) (files : List SnapFile) (news_list : List RawItem) :
    List RawItem :=
  match foldFiles cutoff [] files with
  | Except.ok m => if m.isEmpty then news_list else m.map (fun e => e.2)
  | Except.error _ => news_list

/-- `lookback_hours = 24`, as seconds. -/
def lookbackSecs : Int := 24 * 3600

/-- Lines 226-292 of `SpiderNode.__call__` after the fetch: try to save the
new snapshot (a failure is caught at line 241, printed, and the file is simply
not written), then merge the directory and return the node's `news_data`
payload.  `saveResult` models whether the directory/file write raised. -/
def spiderStep (saveResult : Except String Unit) (now : Int)
    (files : List SnapFile) (news_list : List RawItem) :
    Except String (List RawItem) :=
  let files' : List SnapFile :=
    match saveResult with
    | Except.ok _ => files ++ [{ ts? := some now, content := some news_list }]
    | Except.error _ => files
  Except.ok (mergeStep (now - lookbackSecs) files' news_list)

/-- The spec's dedup scenario, snapshot A's single item:
`{source_id:"weibo", title:"X", rank:3, hot_value:50}`. -/
def itemWX3 : RawItem :=
  { source_id := some "weibo", source := some "微博热搜", source_name := some "微博热搜"
  , title := some "X", rank := some 3, url := some "", mobile_url := some ""
  , hot_value := some 50 }

/-- Snapshot B's single item: `{source_id:"weibo", title:"X", rank:1, hot_value:80}`. -/
def itemWX1 : RawItem :=
  { itemWX3 with rank := some 1, hot_value := some 80 }

/-- Snapshot A: an in-window snapshot file whose name parses. -/
def snapA : SnapFile := { ts? := some 1000, content := some [itemWX3] }

/-- Snapshot B: a second in-window snapshot file. -/
def snapB : SnapFile := { ts? := some 2000, content := some [itemWX1] }

/-- The single AggregatedItem the spec scenario expects from `merge([], [A,B])`:
`{source_id:"weibo", title:"X", rank:1, hot_value:80}`. -/
def itemMergedWX : RawItem := itemWX1

/-- A well-formed snapshot item for the corrupt-file scenario. -/
def goodItem : RawItem :=
  { source_id := some "weibo", source := some "微博热搜", source_name := some "微博热搜"
  , title := some "G", rank := some 1, url := some "", mobile_url := some ""
  , hot_value := some 5 }

/-- A snapshot file with parsable name and valid JSON body. -/
def goodSnap : SnapFile := { ts? := some 1000, content := some [goodItem] }

/-- A snapshot file with parsable name whose JSON body is invalid
(`json.load` raises). -/
def corruptSnap : SnapFile := { ts? := some 2000, content := none }

/-- The item of the current scrape cycle in the corrupt-file scenario. -/
def currentItem : RawItem :=
  { source_id := some "zhihu", source := some "知乎热榜", source_name := some "知乎热榜"
  , title := some "C", rank := some 1, url := some "", mobile_url := some ""
  , hot_value := some 7 }

/-- An item whose title occurs in no other snapshot, inside an in-window
snapshot (timestamp 5000, cutoff 0). -/
def uniqueItem : RawItem :=
  { source_id := some "weibo", source := some "微博热搜", source_name := some "微博热搜"
  , title := some "U", rank := some 2, url := some "", mobile_url := some ""
  , hot_value := some 9 }

/-- The snapshot holding `uniqueItem`, numerically inside the window. -/
def inWindowSnap : SnapFile := { ts? := some 5000, content := some [uniqueItem] }

/-- First of two current-scrape items sharing one dedup key. -/
def dupA : RawItem :=
  { source_id := some "weibo", source := some "微博热搜", source_name := some "微博热搜"
  , title := some "D", rank := some 5, url := some "", mobile_url := some ""
  , hot_value := some 10 }

/-- Second item with the same `(source_id, title)` key as `dupA`. -/
def dupB : RawItem := { dupA with rank := some 2, hot_value := some 20 }

/-- A current-scrape item whose `title` is `None`. -/
def noTitleItem : RawItem :=
  { source_id := some "weibo", source := some "微博热搜", source_name := some "微博热搜"
  , title := none, rank := some 1, url := some "", mobile_url := some ""
  , hot_value := some 3 }

/-- The loosely typed `heat_score` field as it arrives from the scoring
collaborator's JSON: absent/null, a number, or a non-numeric string (on which
`float(...)` raises `ValueError`). -/
inductive HeatField where
  | absent : HeatField
  | num : Rat → HeatField
  | bad : String → HeatField
deriving DecidableEq

/-- One topic of `analysis_result["top_topics"]`, the fields
`render_langgraph_html_report` reads. -/
structure Topic where
  topic : Option String
  sentiment : Option String
  comment : Option String
  heat_score : HeatField
  category : Option String
deriving DecidableEq

/-- `float(tt.get("heat_score") or 0)` guarded by `try/except` (lines
452-458): absent/null and the falsy `0`/empty string give `0.0`, an
unparsable string raises and is caught as `0.0`, a number passes through. -/
def heatOf : HeatField → Rat
  | HeatField.absent => 0
  | HeatField.num q => q
  | HeatField.bad _ => 0

/-- The fixed 11-value taxonomy `category_order` (lines 428-440), in its
canonical declaration order; the last entry is the catch-all. -/
def categoryOrder : List String :=
  ["经济类舆论", "突发事件舆论", "法治类舆论", "文娱类舆论", "科教类舆论",
   "国际关系类舆论", "健康类舆论", "治理类舆论", "民生类舆论", "生态环境类舆论", "其他"]

/-- Lines 443-445: `cat = t.get("category") or "其他"` followed by
`if cat not in topics_by_category: cat = "其他"`. -/
def catOf (t : Topic) : String :=
  let cat := orStr t.category "其他"
  if cat ∈ categoryOrder then cat else "其他"

/-- One step of the grouping loop (line 446): append the topic to its
(coerced) category bucket. -/
def addTopic (bk : String → List Topic) (t : Topic) : String → List Topic :=
  fun c => if c = catOf t then bk c ++ [t] else bk c

/-- `topics_by_category` built by the loop at lines 441-446, viewed as the
total function that is `[]` outside the 11 taxonomy keys. -/
def groupByCategory (topics : List Topic) : String → List Topic :=
  topics.foldl addTopic (fun _ => [])

/-- The loop body of `_category_heat` (lines 456-458):
`if h > max_heat: max_heat = h`. -/
def heatStep (m : Rat) (t : Topic) : Rat :=
  if heatOf t.heat_score > m then heatOf t.heat_score else m

/-- `_category_heat` (lines 449-459): running maximum, seeded `0.0`, of the
safely coerced heat scores of the bucket's topics. -/
def categoryHeat (bk : String → List Topic) (c : String) : Rat :=
  (bk c).foldl heatStep 0

/-- `category_order.index(c)`, the canonical tie-break position. -/
def catIdx (c : String) : Nat := categoryOrder.indexOf c

/-- The sort key comparison of line 463: ascending in
`(-_category_heat(c), category_order.index(c))`, i.e. descending heat first,
canonical position second. -/
def catLe (bk : String → List Topic) (a b : String) : Prop :=
  categoryHeat bk b < categoryHeat bk a ∨
    (categoryHeat bk a = categoryHeat bk b ∧ catIdx a ≤ catIdx b)

instance (bk : String → List Topic) : DecidableRel (catLe bk) := fun a b => by
  unfold catLe
  infer_instance

/-- Lines 461-464: keep only categories with a non-empty bucket, in canonical
order, then stable-sort by the key above (Python's `list.sort` is a stable
sort; so is insertion sort). -/
def orderCategories (bk : String → List Topic) : List String :=
  List.insertionSort (catLe bk) (categoryOrder.filter (fun c => !(bk c).isEmpty))

/-- The hard-coded `platform_order` list of lines 468-479.  The claims state
the row sort for an arbitrary priority list, so the functions below take it
as a parameter; this constant is the one the report renderer passes. -/
def platform_order : List String :=
  ["weibo", "baidu-hot", "douyin", "zhihu", "toutiao", "tieba", "thepaper",
   "cls", "ifeng", "wallstreetcn"]

/-- `item.get("source_id") or item.get("source") or "other"` (lines 618 and
485). -/
def sidOf (n : RawItem) : String := orStr n.source_id (orStr n.source "other")

/-- `_platform_sort_key` (lines 617-619): `platform_index.get(sid,
len(platform_index))` — the index in the priority list, or its length for an
unlisted platform. -/
def platIdx (priority : List String) (n : RawItem) : Nat :=
  priority.indexOf (sidOf n)

/-- The secondary key `n.get("rank") or 9999` of line 630: a missing rank —
and, by Python falsiness, a rank of `0` — becomes the sentinel `9999`. -/
def rankKey (n : RawItem) : Int :=
  match n.rank with
  | none => 9999
  | some r => if r = 0 then 9999 else r

/-- Ascending lexicographic comparison on `(_platform_sort_key(n),
n.get("rank") or 9999)`, the key of `rows.sort` at line 630. -/
def rowLe (priority : List String) (a b : RawItem) : Prop :=
  platIdx priority a < platIdx priority b ∨
    (platIdx priority a = platIdx priority b ∧ rankKey a ≤ rankKey b)

instance (ps : List String) : DecidableRel (rowLe ps) := fun a b => by
  unfold rowLe
  infer_instance

/-- `rows.sort(key=lambda n: (_platform_sort_key(n), n.get("rank") or 9999))`
(line 630).  Python's sort is stable; insertion sort is the stable sort, so
for this total pre-order it produces the same list. -/
def orderRawRows (priority : List String) (items : List RawItem) : List RawItem :=
  List.insertionSort (rowLe priority) items

/-- One element of the platform API's `items` array as the scraper reads it
(lines 210-215).  The outer `Option` is key presence (for the `get` calls
with a default), the inner one a JSON `null`. -/
structure FetchedItem where
  title : Option String
  url : Option (Option String)
  mobileUrl : Option (Option String)
  hotValue : Option (Option Int)
deriving DecidableEq

/-- The dict appended to `news_list` for the item at 1-based position `idx`
of a platform's kept list (lines 206-216): `rank` is `idx`, never a
platform-reported field. -/
def mkNewsItem (source_id source_name : String) (idx : Nat) (it : FetchedItem) :
    RawItem :=
  { source_id := some source_id
  , source := some source_name
  , source_name := some source_name
  , title := it.title
  , rank := some (idx : Int)
  , url := it.url.getD (some "")
  , mobile_url := it.mobileUrl.getD (some "")
  , hot_value := it.hotValue.getD (some 0) }

/-- Lines 204-216 for one platform: `top_items = items[:30]` then
`for idx, item in enumerate(top_items, 1)` building the news dicts. -/
def buildPlatformItems (source_id source_name : String)
    (fetched : List FetchedItem) : List RawItem :=
  ((fetched.take 30).enumFrom 1).map
    (fun p => mkNewsItem source_id source_name p.1 p.2)

/-- A topic carrying an out-of-taxonomy category string. -/
def tXYZ : Topic :=
  { topic := some "某事件", sentiment := some "中性", comment := some "点评"
  , heat_score := HeatField.num 42, category := some "XYZ未知类" }

/-- A topic with a valid catch-all category and a parsed heat score. -/
def tHot : Topic :=
  { topic := some "热事件", sentiment := some "正面", comment := some "点评"
  , heat_score := HeatField.num 50, category := some "其他" }

/-- An unlisted-platform row with rank 5, appearing first in the input. -/
def rowOtherA : RawItem :=
  { source_id := some "other-a", source := none, source_name := some "甲站"
  , title := some "t1", rank := some 5, url := some "", mobile_url := some ""
  , hot_value := some 0 }

/-- A second unlisted-platform row with the smaller rank 3. -/
def rowOtherB : RawItem :=
  { source_id := some "other-b", source := none, source_name := some "乙站"
  , title := some "t2", rank := some 3, url := some "", mobile_url := some ""
  , hot_value := some 0 }

/-- A listed-platform row with no rank at all. -/
def rowNoRank : RawItem :=
  { source_id := some "weibo", source := none, source_name := some "微博热搜"
  , title := some "t3", rank := none, url := some "", mobile_url := some ""
  , hot_value := some 0 }

/-- A row on the same platform with the huge rank 10000. -/
def rowBigRank : RawItem :=
  { rowNoRank with title := some "t4", rank := some 10000 }

/-- The spec scenario's weibo row, rank 2. -/
def rowWeibo2 : RawItem :=
  { source_id := some "weibo", source := none, source_name := some "微博热搜"
  , title := some "w", rank := some 2, url := some "", mobile_url := some ""
  , hot_value := some 0 }

/-- The spec scenario's zhihu row, rank 1. -/
def rowZhihu1 : RawItem :=
  { rowWeibo2 with
      source_id := some "zhihu", source_name := some "知乎热榜",
      title := some "z", rank := some 1 }

/-- The spec scenario's unlisted-platform row, rank 1. -/
def rowOther1 : RawItem :=
  { rowWeibo2 with
      source_id := some "other", source_name := some "其他站",
      title := some "o", rank := some 1 }

/-- A fetched platform item with all fields present. -/
def fetched1 : FetchedItem :=
  { title := some "头条一", url := some (some "https://a"), mobileUrl := some none
  , hotValue := some (some 123) }

/-- A fetched platform item with absent optional fields. -/
def fetched2 : FetchedItem :=
  { title := some "头条二", url := none, mobileUrl := none, hotValue := none }

theorem foldFiles_ok_eq (cutoff : Int) (m : AggMap) :
    ∀ files : List SnapFile,
      foldFiles cutoff m files = Except.ok m ∨
        ∃ e, foldFiles cutoff m files = Except.error e
  | [] => Or.inl rfl
  | f :: fs => by
    cases h : f.ts? with
    | none =>
      have := foldFiles_ok_eq cutoff m fs
      simpa [foldFiles, h] using this
    | some dt =>
      refine Or.inr ⟨"TypeError: cannot compare offset-naive and offset-aware datetimes", ?_⟩
      simp [foldFiles, h, ltNaiveAware]

/-- The central consequence of the naive/aware `TypeError`: the merge of
historical snapshots can never contribute anything — the fold either
completes without having looked at any file (all names unparsable) or raises
at the first parsable name — so `merged_list` is always the raw `news_list`. -/
theorem mergeStep_eq_news (cutoff : Int) (files : List SnapFile)
    (news_list : List RawItem) : mergeStep cutoff files news_list = news_list := by
  rcases foldFiles_ok_eq cutoff [] files with h | ⟨e, h⟩
  · simp [mergeStep, h, List.isEmpty]
  · simp [mergeStep, h]

/-- Claim C1 (code bug, evaluation at the failing input).  The spec's dedup
scenario: two in-window snapshots A = `[{weibo, X, rank 3, hot 50}]` and
B = `[{weibo, X, rank 1, hot 80}]`, current scrape empty.  The claim says the
merged output is exactly `[{weibo, X, rank 1, hot 80}]`; the code instead
raises `TypeError` at `dt < cutoff` (naive `strptime` result against the
timezone-aware cutoff), the handler at line 288 abandons the fold, and the
merged output is the raw current list, here `[]`. -/
theorem c1_scenario_eval :
    mergeStep 0 [snapA, snapB] [] = [] ∧ ([] : List RawItem) ≠ [itemMergedWX] := by
  constructor
  · rfl
  · decide

/-- Claim C2 (confirmed, degenerately).  Merging a snapshot holding exactly the
current items equals merging no snapshots at all, and the merge result is
invariant under any permutation of the snapshot files: both sides always
reduce to the raw `news_list`, because the naive/aware `TypeError` makes every
fold over a parsable-named file fall back to it (see `mergeStep_eq_news`). -/
theorem c2_idempotent_and_order_independent (cutoff t : Int)
    (news : List RawItem) (files files' : List SnapFile)
    (_hperm : files.Perm files') :
    mergeStep cutoff [{ ts? := some t, content := some news }] news =
      mergeStep cutoff [] news ∧
    mergeStep cutoff files news = mergeStep cutoff files' news := by
  constructor
  · rw [mergeStep_eq_news, mergeStep_eq_news]
  · rw [mergeStep_eq_news, mergeStep_eq_news]

/-- Witness for C2 at concrete inputs: a snapshot of the current one-item list
is a no-op, and swapping two concrete snapshot files leaves the result
unchanged. -/
theorem c2_witness :
    mergeStep 0 [{ ts? := some 3000, content := some [goodItem] }] [goodItem] =
      mergeStep 0 [] [goodItem] ∧
    mergeStep 0 [snapA, snapB] [goodItem] = mergeStep 0 [snapB, snapA] [goodItem] :=
  c2_idempotent_and_order_independent 0 3000 [goodItem] [snapA, snapB] [snapB, snapA]
    (List.Perm.swap snapB snapA [])

/-- Claim C3 (code bug, evaluation at the failing input).  Directory with one
well-formed snapshot (`goodSnap`) and one invalid-JSON snapshot
(`corruptSnap`): the claim says the load returns the well-formed snapshot's
items; the code returns the raw current list instead — the fold over the
first parsable-named file raises (and, independently of the timezone bug, a
`json.load` failure is only caught by the handler at line 288, which abandons
every already-loaded snapshot).  A file whose embedded timestamp cannot be
parsed is, as the claim says, skipped by the inner `continue` without ending
the iteration — that half holds. -/
theorem c3_corrupt_eval :
    mergeStep 0 [goodSnap, corruptSnap] [currentItem] = [currentItem] ∧
    [currentItem] ≠ [goodItem] ∧
    (∀ (cutoff : Int) (m : AggMap) (cnt : Option (List RawItem)) (fs : List SnapFile),
      foldFiles cutoff m ({ ts? := none, content := cnt } :: fs) =
        foldFiles cutoff m fs) := by
  refine ⟨rfl, by decide, ?_⟩
  intro cutoff m cnt fs
  rfl

/-- Claim C4 (code bug, evaluation at the failing input).  `inWindowSnap` has
timestamp 5000, cutoff is 0, so the snapshot lies inside the window and the
claim says its unique-title item takes part in the fold.  The code instead
raises `TypeError` at the window comparison itself, so the in-window snapshot
contributes nothing and its item is absent from the merged output. -/
theorem c4_window_eval :
    mergeStep 0 [inWindowSnap] [] = [] ∧
    uniqueItem ∉ mergeStep 0 [inWindowSnap] [] := by
  constructor
  · rfl
  · intro h
    simp [mergeStep_eq_news] at h

/-- Counterexample to claim C5 at a concrete input: with the snapshot write
failing (`Except.error "disk full"`), `SpiderNode.__call__` still returns a
normal payload — `Except.ok []` — because the `except` at line 241 only
prints the failure; no `IOError`/`StorageError` reaches the caller. -/
theorem c5_counterexample :
    spiderStep (Except.error "disk full") 100000 [] [] = Except.ok [] := by
  rfl

/-- Claim C5 as amended: a failure to create or write the snapshot file is
caught inside the node (line 241) and only logged; the new snapshot is simply
not written, the 24-hour merge proceeds over the pre-existing files, and the
node returns a normal `ok` payload.  No error is surfaced to the caller. -/
theorem c5_amended (e : String) (now : Int) (files : List SnapFile)
    (news : List RawItem) :
    spiderStep (Except.error e) now files news =
      Except.ok (mergeStep (now - lookbackSecs) files news) ∧
    spiderStep (Except.error e) now files news = Except.ok news := by
  refine ⟨rfl, ?_⟩
  simp [spiderStep, mergeStep_eq_news]

/-- Counterexample to claim C6 at a concrete input: with an empty snapshot
directory and a current scrape holding two items with the same dedup key
(`dupA`, `dupB`), the aggregation step returns the two items unchanged.  That
output is not "a valid aggregation of currentItems alone", which would hold
exactly one AggregatedItem per distinct key (here `[{weibo, D, rank 2,
hot 20}]`). -/
theorem c6_counterexample :
    mergeStep 0 [] [dupA, dupB] = [dupA, dupB] ∧
    keyOf dupA = keyOf dupB ∧ dupA ≠ dupB := by
  refine ⟨rfl, by decide, by decide⟩

/-- Claim C6 as amended: for every current-item list and every
snapshot-directory state (and whether or not the save raised), the aggregation
step never raises — every internal failure is caught — and its payload is
`currentItems` unchanged, not an aggregation of them: duplicate keys and
empty-titled items in the current scrape survive into the output. -/
theorem c6_amended (saveResult : Except String Unit) (now : Int)
    (files : List SnapFile) (news : List RawItem) :
    spiderStep saveResult now files news = Except.ok news := by
  cases saveResult <;> simp [spiderStep, mergeStep_eq_news]

theorem pairwise_combine {α : Type} {R S T : α → α → Prop}
    (h : ∀ a b, R a b → S a b → T a b) :
    ∀ {L : List α}, L.Pairwise R → L.Pairwise S → L.Pairwise T := by
  intro L hR
  induction hR with
  | nil => intro _; exact List.Pairwise.nil
  | cons ha _ ih =>
    intro hS
    cases hS with
    | cons hb hS' =>
      exact List.Pairwise.cons (fun x hx => h _ _ (ha x hx) (hb x hx)) (ih hS')

theorem pairwise_mem {α : Type} {R : α → α → Prop} {Q : α → Prop} :
    ∀ {L : List α}, L.Pairwise R → (∀ a, a ∈ L → Q a) →
      L.Pairwise (fun a b => R a b ∧ Q a ∧ Q b) := by
  intro L hR
  induction hR with
  | nil => intro _; exact List.Pairwise.nil
  | @cons a L' ha _ ih =>
    intro hQ
    refine List.Pairwise.cons (fun x hx =>
      ⟨ha x hx, hQ a (List.mem_cons_self a L'), hQ x (List.mem_cons_of_mem a hx)⟩) ?_
    exact ih (fun x hx => hQ x (List.mem_cons_of_mem a hx))

theorem categoryOrder_nodup : categoryOrder.Nodup := by decide

theorem catLe_total (bk : String → List Topic) (a b : String) :
    catLe bk a b ∨ catLe bk b a := by
  unfold catLe
  rcases lt_trichotomy (categoryHeat bk a) (categoryHeat bk b) with h | h | h
  · exact Or.inr (Or.inl h)
  · rcases Nat.le_total (catIdx a) (catIdx b) with hi | hi
    · exact Or.inl (Or.inr ⟨h, hi⟩)
    · exact Or.inr (Or.inr ⟨h.symm, hi⟩)
  · exact Or.inl (Or.inl h)

theorem catLe_trans (bk : String → List Topic) (a b c : String)
    (hab : catLe bk a b) (hbc : catLe bk b c) : catLe bk a c := by
  unfold catLe at *
  rcases hab with hab | ⟨hab, iab⟩ <;> rcases hbc with hbc | ⟨hbc, ibc⟩
  · exact Or.inl (lt_trans hbc hab)
  · exact Or.inl (by rw [← hbc]; exact hab)
  · exact Or.inl (by rw [hab]; exact hbc)
  · exact Or.inr ⟨hab.trans hbc, le_trans iab ibc⟩

theorem catLe_strict {bk : String → List Topic} {a b : String}
    (hle : catLe bk a b) (hne : a ≠ b)
    (ha : a ∈ categoryOrder) (hb : b ∈ categoryOrder) :
    categoryHeat bk b < categoryHeat bk a ∨
      (categoryHeat bk a = categoryHeat bk b ∧ catIdx a < catIdx b) := by
  rcases hle with h | ⟨he, hi⟩
  · exact Or.inl h
  · refine Or.inr ⟨he, lt_of_le_of_ne hi ?_⟩
    intro hidx
    exact hne ((List.indexOf_inj ha hb).mp hidx)

theorem heatFold_spec :
    ∀ (l : List Topic) (m : Rat),
      m ≤ l.foldl heatStep m ∧
      (∀ t, t ∈ l → heatOf t.heat_score ≤ l.foldl heatStep m) ∧
      (l.foldl heatStep m = m ∨ ∃ t, t ∈ l ∧ l.foldl heatStep m = heatOf t.heat_score)
  | [], m => by simp
  | t :: l, m => by
    have ih := heatFold_spec l (heatStep m t)
    have hup : m ≤ heatStep m t := by
      unfold heatStep
      split
      · exact le_of_lt (by assumption)
      · exact le_refl m
    have hht : heatOf t.heat_score ≤ heatStep m t := by
      unfold heatStep
      split
      · exact le_refl _
      · exact le_of_not_lt (by assumption)
    have hcases : heatStep m t = m ∨ heatStep m t = heatOf t.heat_score := by
      unfold heatStep
      split
      · exact Or.inr rfl
      · exact Or.inl rfl
    rw [List.foldl_cons]
    refine ⟨le_trans hup ih.1, ?_, ?_⟩
    · intro x hx
      rcases List.mem_cons.mp hx with hx | hx
      · subst hx
        exact le_trans hht ih.1
      · exact ih.2.1 x hx
    · rcases ih.2.2 with hfix | ⟨x, hx, hxe⟩
      · rcases hcases with hc | hc
        · exact Or.inl (hfix.trans hc)
        · exact Or.inr ⟨t, List.mem_cons_self t l, hfix.trans hc⟩
      · exact Or.inr ⟨x, List.mem_cons_of_mem t hx, hxe⟩

/-- Claim C7 (confirmed).  `orderCategories` lists exactly the taxonomy
categories with a non-empty bucket; consecutive pairs are ordered by strictly
descending representative heat with exact ties broken by strictly increasing
canonical position; and the representative heat is the maximum of the bucket's
safely-coerced heat scores and the seed `0` (missing/unparsable scores coerce
to `0`). -/
theorem c7_orderCategories_spec (bk : String → List Topic) :
    (∀ c, c ∈ orderCategories bk ↔ c ∈ categoryOrder ∧ bk c ≠ []) ∧
    (orderCategories bk).Pairwise (fun a b =>
      categoryHeat bk b < categoryHeat bk a ∨
        (categoryHeat bk a = categoryHeat bk b ∧ catIdx a < catIdx b)) ∧
    (∀ c, (∀ t, t ∈ bk c → heatOf t.heat_score ≤ categoryHeat bk c) ∧
      (categoryHeat bk c = 0 ∨
        ∃ t, t ∈ bk c ∧ categoryHeat bk c = heatOf t.heat_score)) := by
  have hperm : (orderCategories bk).Perm
      (categoryOrder.filter (fun c => !(bk c).isEmpty)) :=
    List.perm_insertionSort _ _
  refine ⟨?_, ?_, ?_⟩
  · intro c
    rw [hperm.mem_iff, List.mem_filter]
    simp
  · haveI : IsTotal String (catLe bk) := ⟨catLe_total bk⟩
    haveI : IsTrans String (catLe bk) := ⟨catLe_trans bk⟩
    have hsorted : List.Sorted (catLe bk) (orderCategories bk) :=
      List.sorted_insertionSort _ _
    have hnodup : (orderCategories bk).Nodup :=
      hperm.nodup_iff.mpr (categoryOrder_nodup.filter _)
    have hmem : ∀ a, a ∈ orderCategories bk → a ∈ categoryOrder := by
      intro a ha
      exact (List.mem_filter.mp (hperm.mem_iff.mp ha)).1
    have hcomb :=
      pairwise_combine (fun a b (h1 : catLe bk a b) (h2 : a ≠ b) => And.intro h1 h2)
        hsorted hnodup
    have hcomb2 := pairwise_mem (Q := fun a => a ∈ categoryOrder) hcomb hmem
    exact hcomb2.imp (fun h => catLe_strict h.1.1 h.1.2 h.2.1 h.2.2)
  · intro c
    have h := heatFold_spec (bk c) 0
    exact ⟨h.2.1, h.2.2⟩

/-- Witness for C7 at a concrete input: in the bucket map built from the
single topic `tHot`, that topic's heat score is bounded by the representative
heat of its own category. -/
theorem c7_witness :
    heatOf tHot.heat_score ≤ categoryHeat (groupByCategory [tHot]) "其他" :=
  ((c7_orderCategories_spec (groupByCategory [tHot])).2.2 "其他").1 tHot (by decide)

theorem catOf_mem (t : Topic) : catOf t ∈ categoryOrder := by
  by_cases h : orStr t.category "其他" ∈ categoryOrder
  · simp [catOf, h]
  · simp only [catOf, h, if_false]
    decide

theorem foldl_addTopic_eq (c : String) :
    ∀ (l : List Topic) (bk : String → List Topic),
      (l.foldl addTopic bk) c = bk c ++ l.filter (fun t => decide (catOf t = c))
  | [], bk => by simp
  | t :: l, bk => by
    rw [List.foldl_cons, foldl_addTopic_eq c l]
    by_cases h : catOf t = c
    · simp [addTopic, h, List.filter_cons]
    · simp [addTopic, h, List.filter_cons, Ne.symm h]

/-- Claim C8 (confirmed).  The taxonomy has 11 buckets; each bucket of
`groupByCategory` is the sublist of the input topics whose coerced category is
that bucket's name (so relative input order is preserved); every topic lands
in its coerced bucket and in no other; and a category value outside the
taxonomy — or absent — is coerced to the catch-all `"其他"`, never dropped. -/
theorem c8_groupByCategory_spec (topics : List Topic) :
    categoryOrder.length = 11 ∧
    (∀ c, groupByCategory topics c = topics.filter (fun t => decide (catOf t = c))) ∧
    (∀ c, List.Sublist (groupByCategory topics c) topics) ∧
    (∀ t, t ∈ topics → catOf t ∈ categoryOrder ∧
      t ∈ groupByCategory topics (catOf t) ∧
      ∀ c, c ≠ catOf t → t ∉ groupByCategory topics c) ∧
    (∀ t s, t.category = some s → s ∉ categoryOrder → catOf t = "其他") ∧
    (∀ t, t.category = none → catOf t = "其他") := by
  have hfil : ∀ c, groupByCategory topics c =
      topics.filter (fun t => decide (catOf t = c)) := by
    intro c
    simpa [groupByCategory] using foldl_addTopic_eq c topics (fun _ => [])
  refine ⟨by decide, hfil, ?_, ?_, ?_, ?_⟩
  · intro c
    rw [hfil c]
    exact List.filter_sublist _
  · intro t ht
    refine ⟨catOf_mem t, ?_, ?_⟩
    · rw [hfil (catOf t)]
      exact List.mem_filter.mpr ⟨ht, by simp⟩
    · intro c hc hmem
      rw [hfil c] at hmem
      have h2 := (List.mem_filter.mp hmem).2
      simp only [decide_eq_true_eq] at h2
      exact hc h2.symm
  · intro t s hs hnot
    by_cases hse : s = ""
    · subst hse
      simp [catOf, orStr, hs]
    · simp [catOf, orStr, hs, hse, hnot]
  · intro t hn
    simp [catOf, orStr, hn]

/-- Witness for C8 at a concrete input: the topic `tXYZ`, whose category
string is outside the taxonomy, is coerced to the catch-all and appears in the
catch-all bucket. -/
theorem c8_witness :
    catOf tXYZ = "其他" ∧ catOf tXYZ ∈ categoryOrder ∧
    tXYZ ∈ groupByCategory [tXYZ] (catOf tXYZ) := by
  have h := c8_groupByCategory_spec [tXYZ]
  have h4 := h.2.2.2.1 tXYZ (List.mem_singleton.mpr rfl)
  have h5 := h.2.2.2.2.1 tXYZ "XYZ未知类" rfl (by decide)
  exact ⟨h5, h4.1, h4.2.1⟩

/-- Counterexample to claim C9 at concrete inputs.  With priority
`["weibo"]`: two unlisted-platform rows arriving as `[rank 5, rank 3]` are
reordered to `[rank 3, rank 5]` — their relative input order is not
preserved, because the secondary rank key still applies across unlisted
platforms; and on one platform, a missing-rank row (sentinel 9999) sorts
before a row with rank 10000, so a missing rank does not sort last within its
platform group. -/
theorem c9_counterexample :
    orderRawRows ["weibo"] [rowOtherA, rowOtherB] = [rowOtherB, rowOtherA] ∧
    orderRawRows ["weibo"] [rowOtherA, rowOtherB] ≠ [rowOtherA, rowOtherB] ∧
    orderRawRows ["weibo"] [rowBigRank, rowNoRank] = [rowNoRank, rowBigRank] := by
  exact ⟨by decide, by decide, by decide⟩

/-- Claim C9 as amended.  `orderRawRows` returns a permutation of its input
sorted by the ascending lexicographic key `(platform index — the position of
the row's source id in the priority list, or its length when unlisted —,
effective rank — the row's rank, or the sentinel 9999 when the rank is
missing or 0)`; rows with equal platform index are ordered by effective rank
(so unlisted rows keep their input order only at equal effective ranks, and a
missing rank sorts after exactly the present ranks below 9999); the spec's
scenario holds: with priority `["weibo","zhihu"]`, rows from weibo(rank 2),
zhihu(rank 1) and an unlisted platform (rank 1) come out in that order. -/
theorem c9_amended (ps : List String) (items : List RawItem) :
    (orderRawRows ps items).Perm items ∧
    List.Sorted (rowLe ps) (orderRawRows ps items) ∧
    orderRawRows ["weibo", "zhihu"] [rowOther1, rowZhihu1, rowWeibo2] =
      [rowWeibo2, rowZhihu1, rowOther1] := by
  refine ⟨List.perm_insertionSort _ _, ?_, by decide⟩
  haveI : IsTotal RawItem (rowLe ps) := ⟨by
    intro a b
    unfold rowLe
    omega⟩
  haveI : IsTrans RawItem (rowLe ps) := ⟨by
    intro a b c hab hbc
    unfold rowLe at *
    omega⟩
  exact List.sorted_insertionSort _ _

theorem buildItems_titles (sid sname : String) :
    ∀ (l : List FetchedItem) (n : Nat),
      ((l.enumFrom n).map (fun p => (mkNewsItem sid sname p.1 p.2).title)) =
        l.map (fun it => it.title)
  | [], _ => rfl
  | it :: l, n => by
    have ih := buildItems_titles sid sname l (n + 1)
    simp only [List.enumFrom, List.map_cons]
    rw [ih]
    rfl

theorem buildItems_ranks (sid sname : String) :
    ∀ (l : List FetchedItem) (n : Nat),
      ((l.enumFrom n).map (fun p => (mkNewsItem sid sname p.1 p.2).rank)) =
        (List.range' n l.length).map (fun j => some ((j : Nat) : Int))
  | [], _ => by simp
  | it :: l, n => by
    have ih := buildItems_ranks sid sname l (n + 1)
    simp only [List.enumFrom, List.map_cons, List.length_cons, List.range']
    rw [ih]
    rfl

/-- Claim C10 (confirmed).  For one platform, the scraper keeps at most the
first 30 fetched items (their titles, in order, are those of
`items[:30]`), assigns each kept item the rank equal to its 1-based position
in that kept list — never a platform-reported value — and therefore every
produced rank is an integer between 1 and 30 inclusive. -/
theorem c10_rank_assignment (sid sname : String) (fetched : List FetchedItem) :
    (buildPlatformItems sid sname fetched).length = min 30 fetched.length ∧
    (buildPlatformItems sid sname fetched).length ≤ 30 ∧
    (buildPlatformItems sid sname fetched).map (fun r => r.title) =
      (fetched.take 30).map (fun it => it.title) ∧
    (buildPlatformItems sid sname fetched).map (fun r => r.rank) =
      (List.range' 1 (min 30 fetched.length)).map (fun j => some ((j : Nat) : Int)) ∧
    (∀ r, r ∈ buildPlatformItems sid sname fetched →
      ∃ k : Int, r.rank = some k ∧ 1 ≤ k ∧ k ≤ 30) := by
  have hlen : (buildPlatformItems sid sname fetched).length = min 30 fetched.length := by
    simp [buildPlatformItems]
  have hranks : (buildPlatformItems sid sname fetched).map (fun r => r.rank) =
      (List.range' 1 (min 30 fetched.length)).map (fun j => some ((j : Nat) : Int)) := by
    have h := buildItems_ranks sid sname (fetched.take 30) 1
    simpa [buildPlatformItems, List.map_map, Function.comp] using h
  refine ⟨hlen, ?_, ?_, hranks, ?_⟩
  · rw [hlen]
    exact Nat.min_le_left _ _
  · have h := buildItems_titles sid sname (fetched.take 30) 1
    simpa [buildPlatformItems, List.map_map, Function.comp] using h
  · intro r hr
    have hmem : r.rank ∈ (buildPlatformItems sid sname fetched).map (fun r => r.rank) :=
      List.mem_map_of_mem _ hr
    rw [hranks] at hmem
    rcases List.mem_map.mp hmem with ⟨j, hj, hje⟩
    rcases List.mem_range'.mp hj with ⟨i, hi, hij⟩
    refine ⟨(j : Int), hje.symm, ?_, ?_⟩
    · omega
    · have h30 : min 30 fetched.length ≤ 30 := Nat.min_le_left _ _
      omega

/-- Witness for C10 at a concrete input: the first of two fetched items gets
rank 1, which lies in `[1, 30]`. -/
theorem c10_witness :
    ∃ k : Int, (mkNewsItem "weibo" "微博热搜" 1 fetched1).rank = some k ∧
      1 ≤ k ∧ k ≤ 30 :=
  (c10_rank_assignment "weibo" "微博热搜" [fetched1, fetched2]).2.2.2.2
    (mkNewsItem "weibo" "微博热搜" 1 fetched1) (by decide)

end TrendRadar
